import Mathlib

/-!
# LoginPage: the submission workflow of `client/src/pages/LoginPage.jsx`

A shallow embedding of the `LoginPage` component: its two pieces of local
state (`formData`, `notification`), the handlers `handleChange`,
`handleSubmit` and the banner's `onClose`, and the rendering of the submit
button.  `handleSubmit` is embedded as the ordered list of the calls it
makes; the calls are then interpreted over a small model of the page
(component state, `localStorage`, pending timers, navigation log).
-/

namespace LoginPage

/-! ## JavaScript values -/

/-- The fragment of JavaScript values that can reach the handler as the value
a rejected `signin` is thrown with, or as the `status` read from the store.
Numbers are the integer-valued ones; an object is the list of the properties
a lookup finds on it. -/
inductive JsVal where
  | undefined : JsVal
  | null : JsVal
  | bool (b : Bool) : JsVal
  | num (n : Int) : JsVal
  | str (s : String) : JsVal
  | obj (props : List (String × JsVal)) : JsVal

/-- JavaScript truthiness, as used by `||` and `&&`. -/
def JsVal.truthy : JsVal → Bool
  | .undefined => false
  | .null => false
  | .bool b => b
  | .num n => decide (n ≠ 0)
  | .str s => decide (s ≠ "")
  | .obj _ => true

/-- The comparison `v === s` of a value with a string literal. -/
def JsVal.strictEqStr : JsVal → String → Bool
  | .str t, s => decide (t = s)
  | _, _ => false

/-- The operator `a || b`. -/
def JsVal.or (a b : JsVal) : JsVal :=
  if a.truthy then a else b

/-- The property read `error.message`.  Reading a property of `undefined` or
`null` throws a `TypeError`, which is the result `none`; on any other
primitive the property is missing and the read gives `undefined`. -/
def JsVal.message : JsVal → Option JsVal
  | .undefined => none
  | .null => none
  | .obj props => some ((props.lookup "message").getD .undefined)
  | _ => some .undefined

/-! ## Component state -/

/-- The state `formData` of line 13. -/
structure FormData where
  email : String
  password : String
  deriving DecidableEq, Repr

/-- The state `notification` of line 14. -/
structure Notification where
  message : JsVal
  type : String

/-- The two controls whose `onChange` is `handleChange`, by their `name`. -/
inductive FieldName where
  | email
  | password
  deriving DecidableEq, Repr

/-- The local state of the component. -/
structure State where
  formData : FormData
  notification : Notification

/-- The value `{ message: '', type: '' }`, written at lines 14, 27 and 65. -/
def emptyNotification : Notification :=
  { message := .str "", type := "" }

/-- The state at mount (lines 13-14). -/
def initialState : State :=
  { formData := { email := "", password := "" }, notification := emptyNotification }

/-- The reason that `handleSubmit` compares `error.message` with (line 39). -/
def verifyEmailReason : String := "Please verify your email first."

/-- The fallback text of line 50. -/
def fallbackMessage : String := "Login failed. Please try again."

/-! ## The handlers, as the calls they make -/

/-- The function handed to `setTimeout` at line 46, `() => navigate(route)`. -/
inductive Callback where
  | navigate (route : String) : Callback

/-- One call made by a handler of the component. -/
inductive Call where
  | preventDefault : Call
  | setNotification (n : Notification) : Call
  | dispatchSignin (credentials : FormData) : Call
  | navigate (route : String) : Call
  | consoleError (error : JsVal) : Call
  | localStorageSetItem (key value : String) : Call
  | setTimeout (callback : Callback) (delay : Nat) : Call

/-- How `await dispatch(signin(formData)).unwrap()` settles: it resolves, or
the `try` block is left with the thrown value `error`. -/
inductive SigninOutcome where
  | fulfilled (payload : JsVal) : SigninOutcome
  | rejected (error : JsVal) : SigninOutcome

/-- What a handler did: the calls it made, in order, and whether an exception
left it (`threw`). -/
structure Run where
  calls : List Call
  threw : Bool

/-- Lines 26-31 of `handleSubmit`: everything up to the `await`. -/
def handleSubmitBegin (formData : FormData) : List Call :=
  [.preventDefault, .setNotification emptyNotification, .dispatchSignin formData]

/-- Lines 36-54 of `handleSubmit`: the `catch (error)` block.  Evaluating
`error.message` at line 39 throws when `error` is `undefined` or `null`, and
nothing catches it. -/
def handleSubmitCatch (formData : FormData) (error : JsVal) : Run :=
  match error.message with
  | none => { calls := [.consoleError error], threw := true }
  | some m =>
    if m.strictEqStr verifyEmailReason then
      { calls :=
          [.consoleError error,
           .localStorageSetItem "email" formData.email,
           .setNotification
             { message := .str "Please verify your email. Redirecting...", type := "warning" },
           .setTimeout (.navigate "/verifyemail") 2000],
        threw := false }
    else
      { calls :=
          [.consoleError error,
           .setNotification { message := m.or (.str fallbackMessage), type := "danger" }],
        threw := false }

/-- Lines 33-54 of `handleSubmit`: what runs once the `await` has settled. -/
def handleSubmitSettle (formData : FormData) : SigninOutcome → Run
  | .fulfilled _ =>
    { calls :=
        [.setNotification { message := .str "Login successful!", type := "success" },
         .navigate "/home"],
      threw := false }
  | .rejected error => handleSubmitCatch formData error

/-- The handler `handleSubmit` (lines 25-55), run with the component's
`formData` and the way `signin` settles. -/
def handleSubmit (formData : FormData) (outcome : SigninOutcome) : Run :=
  let settled := handleSubmitSettle formData outcome
  { calls := handleSubmitBegin formData ++ settled.calls, threw := settled.threw }

/-- The calls up to and including the first `localStorage.setItem`, when there
is one. -/
def upToSetItem : List Call → Option (List Call)
  | [] => none
  | .localStorageSetItem key value :: _ => some [.localStorageSetItem key value]
  | c :: rest => (upToSetItem rest).map (fun calls => c :: calls)

/-- The run `r` of `handleSubmit` as it goes when `localStorage.setItem`
throws (the storage is full or disabled).  The only `setItem` of the handler
is at line 41, inside the `catch` block: the run stops at that call and the
exception leaves the handler. -/
def Run.setItemThrowing (r : Run) : Run :=
  match upToSetItem r.calls with
  | some calls => { calls := calls, threw := true }
  | none => r

/-- The handler `handleSubmit` on a page where `localStorage.setItem` throws
(`setItemThrows`) or returns. -/
def handleSubmitWithStorage (setItemThrows : Bool) (formData : FormData)
    (outcome : SigninOutcome) : Run :=
  if setItemThrows then (handleSubmit formData outcome).setItemThrowing
  else handleSubmit formData outcome

/-- The banner's `onClose` (line 65). -/
def onClose : List Call :=
  [.setNotification emptyNotification]

/-- The handler `handleChange` (lines 17-22) on the form data. -/
def handleChange (prevData : FormData) (name : FieldName) (value : String) : FormData :=
  match name with
  | .email => { prevData with email := value }
  | .password => { prevData with password := value }

/-! ## Reading a list of calls -/

/-- The routes of the `navigate` calls made directly. -/
def navigateCalls : List Call → List String
  | [] => []
  | .navigate route :: rest => route :: navigateCalls rest
  | _ :: rest => navigateCalls rest

/-- The `(key, value)` pairs of the `localStorage.setItem` calls. -/
def storageWrites : List Call → List (String × String)
  | [] => []
  | .localStorageSetItem key value :: rest => (key, value) :: storageWrites rest
  | _ :: rest => storageWrites rest

/-- The `(callback, delay)` pairs of the `setTimeout` calls. -/
def timeoutCalls : List Call → List (Callback × Nat)
  | [] => []
  | .setTimeout callback delay :: rest => (callback, delay) :: timeoutCalls rest
  | _ :: rest => timeoutCalls rest

/-- The credentials of the `dispatch(signin(...))` calls. -/
def signinCalls : List Call → List FormData
  | [] => []
  | .dispatchSignin credentials :: rest => credentials :: signinCalls rest
  | _ :: rest => signinCalls rest

/-- The notification after the calls, starting from `n`: the argument of the
last `setNotification`. -/
def notificationAfter (n : Notification) : List Call → Notification
  | [] => n
  | .setNotification m :: rest => notificationAfter m rest
  | _ :: rest => notificationAfter n rest

/-- The component's state after the calls of a handler. -/
def State.after (s : State) (calls : List Call) : State :=
  { s with notification := notificationAfter s.notification calls }

/-! ## Rendering -/

/-- The `disabled` attribute of the submit button (line 104). -/
def submitDisabled (status : JsVal) : Bool :=
  status.strictEqStr "loading"

/-- Whether the submit button shows the `Spinner` (lines 106-114). -/
def submitSpinner (status : JsVal) : Bool :=
  status.strictEqStr "loading"

/-- The text of the submit button (lines 106-119). -/
def submitLabel (status : JsVal) : String :=
  if status.strictEqStr "loading" then "Logging in..." else "Login"

/-- What React makes of a value placed as a child: a string or a number is
text, and a boolean, `null` or `undefined` is nothing. -/
inductive Child where
  | text (s : String) : Child
  | number (k : Int) : Child
  | nothing : Child

/-- The child a value is.  React refuses a plain object as a child and the
render throws, which is the result `none`. -/
def JsVal.asChild : JsVal → Option Child
  | .undefined => some .nothing
  | .null => some .nothing
  | .bool _ => some .nothing
  | .num k => some (.number k)
  | .str s => some (.text s)
  | .obj _ => none

/-- Whether a child puts something to read on the page. -/
def Child.visible : Child → Bool
  | .text s => decide (s ≠ "")
  | .number _ => true
  | .nothing => false

/-- What the expression of lines 62-70 puts on the page: the `Alert` with its
`variant` and its child, or, when `notification.message` is falsy, that value
itself as a child and no `Alert`. -/
inductive Rendered where
  | bare (c : Child) : Rendered
  | alert (variant : String) (c : Child) : Rendered

/-- The notification banner (lines 62-70):
`notification.message && <Alert variant={notification.type}>{notification.message}</Alert>`.
The result is `none` when the render throws. -/
def renderBanner (n : Notification) : Option Rendered :=
  if n.message.truthy then n.message.asChild.map (Rendered.alert n.type)
  else n.message.asChild.map Rendered.bare

/-- Whether the page shows the `Alert` with a message to read in it. -/
def bannerShown (n : Notification) : Bool :=
  match renderBanner n with
  | some (.alert _ c) => c.visible
  | _ => false

/-- The kinds of notification the specification names. -/
inductive Kind where
  | none
  | success
  | warning
  | error
  deriving DecidableEq, Repr

/-- The kind a `type` stands for: `type` is the Bootstrap variant of the
banner (line 64), and the variant of an error is `danger`. -/
def kindOf (type : String) : Option Kind :=
  if type = "" then some .none
  else if type = "success" then some .success
  else if type = "warning" then some .warning
  else if type = "danger" then some .error
  else none

/-! ## The page the calls act on -/

/-- A pending timer: the time it is due at and what it runs. -/
structure Timer where
  due : Nat
  callback : Callback

/-- The page around the component: the clock (in ms), whether the component is
mounted, its state, `localStorage`, the pending timers in the order they were
set, the navigation requests with the time each was issued at, and the
credentials `signin` was dispatched with. -/
structure Page where
  now : Nat
  mounted : Bool
  state : State
  storage : List (String × String)
  timers : List Timer
  navigations : List (Nat × String)
  dispatched : List FormData

/-- The effect of one call on the page.  A state update of a component that is
no longer mounted is dropped. -/
def Page.perform (p : Page) : Call → Page
  | .preventDefault => p
  | .setNotification n =>
    if p.mounted then { p with state := { p.state with notification := n } } else p
  | .dispatchSignin credentials => { p with dispatched := p.dispatched ++ [credentials] }
  | .navigate route => { p with navigations := p.navigations ++ [(p.now, route)] }
  | .consoleError _ => p
  | .localStorageSetItem key value =>
    { p with storage := (key, value) :: p.storage.filter (fun kv => kv.1 ≠ key) }
  | .setTimeout callback delay =>
    { p with timers := p.timers ++ [{ due := p.now + delay, callback := callback }] }

/-- The effect of a list of calls, in order. -/
def Page.run (p : Page) (calls : List Call) : Page :=
  calls.foldl Page.perform p

/-- A timer fires: its callback runs, at the time the timer was due. -/
def Timer.fire (p : Page) (t : Timer) : Page :=
  match t.callback with
  | .navigate route => { p with navigations := p.navigations ++ [(t.due, route)] }

/-- The clock advances by `ms`: the timers due by then fire, the others stay
pending.  Every timer of this page has the same delay, so the list of pending
timers is in the order they fire in. -/
def Page.advance (p : Page) (ms : Nat) : Page :=
  (p.timers.filter (fun t => decide (t.due ≤ p.now + ms))).foldl Timer.fire
    { p with
      now := p.now + ms,
      timers := p.timers.filter (fun t => !decide (t.due ≤ p.now + ms)) }

/-- The component is torn down.  `LoginPage` registers no cleanup (it has no
effect hook and never calls `clearTimeout`), so nothing but the flag changes. -/
def Page.unmount (p : Page) : Page :=
  { p with mounted := false }

/-- The value `localStorage.getItem(key)`. -/
def Page.getItem (p : Page) (key : String) : Option String :=
  p.storage.lookup key

/-- The form's `onSubmit` runs `handleSubmit` with the `formData` of the
current render; `signin` settles `latency` ms later. -/
def Page.submit (p : Page) (outcome : SigninOutcome) (latency : Nat) : Page :=
  ((p.run (handleSubmitBegin p.state.formData)).advance latency).run
    (handleSubmitSettle p.state.formData outcome).calls

/-- The browser's validation of the form before it fires `submit`: both
controls are `required` (lines 82 and 95), and the email control has
`type="email"` (line 77), whose check of a non-empty value is `validEmail`. -/
def checkValidity (validEmail : String → Bool) (formData : FormData) : Bool :=
  decide (formData.email ≠ "") && validEmail formData.email
    && decide (formData.password ≠ "")

/-- The user activates the submit button (lines 100-105): nothing happens when
it is disabled or the form is invalid; otherwise `submit` fires. -/
def Page.clickSubmit (validEmail : String → Bool) (status : JsVal) (p : Page)
    (outcome : SigninOutcome) (latency : Nat) : Page :=
  if submitDisabled status then p
  else if checkValidity validEmail p.state.formData then p.submit outcome latency
  else p

/-! ## The component as a transition system -/

/-- What can happen to the component's state: a keystroke in a field, the two
halves of `handleSubmit` (before and after the `await`), and the dismissal of
the banner. -/
inductive Event where
  | change (name : FieldName) (value : String) : Event
  | submitBegin : Event
  | submitSettle (formData : FormData) (outcome : SigninOutcome) : Event
  | dismiss : Event

/-- The state after an event. -/
def State.step (s : State) : Event → State
  | .change name value => { s with formData := handleChange s.formData name value }
  | .submitBegin => s.after (handleSubmitBegin s.formData)
  | .submitSettle formData outcome => s.after (handleSubmitSettle formData outcome).calls
  | .dismiss => s.after onClose

/-- The states the component can be in. -/
inductive Reachable : State → Prop where
  | init : Reachable initialState
  | step (s : State) (e : Event) : Reachable s → Reachable (s.step e)

/-- The invariant of the notification: a message that is absent (falsy, so
that no banner is rendered) comes with the empty `type`. -/
def Notification.Invariant (n : Notification) : Prop :=
  n.message.truthy = false → n.type = ""

/-! ## Lemmas -/

theorem message_str_of_strictEqStr (m : JsVal) (s : String)
    (h : m.strictEqStr s = true) : m = .str s := by
  cases m <;> simp [JsVal.strictEqStr] at h
  rw [h]

theorem strictEqStr_str (t s : String) : (JsVal.str t).strictEqStr s = decide (t = s) := rfl

theorem or_truthy (m : JsVal) : (m.or (.str fallbackMessage)).truthy = true := by
  unfold JsVal.or
  by_cases h : m.truthy = true
  · rw [if_pos h]; exact h
  · rw [if_neg h]; simp [JsVal.truthy, fallbackMessage]

theorem handleSubmitCatch_verify (formData : FormData) (error : JsVal)
    (h : error.message = some (.str verifyEmailReason)) :
    handleSubmitCatch formData error =
      { calls :=
          [.consoleError error,
           .localStorageSetItem "email" formData.email,
           .setNotification
             { message := .str "Please verify your email. Redirecting...", type := "warning" },
           .setTimeout (.navigate "/verifyemail") 2000],
        threw := false } := by
  unfold handleSubmitCatch
  rw [h]
  simp [strictEqStr_str]

theorem handleSubmitCatch_other (formData : FormData) (error m : JsVal)
    (h : error.message = some m) (hm : m.strictEqStr verifyEmailReason = false) :
    handleSubmitCatch formData error =
      { calls :=
          [.consoleError error,
           .setNotification { message := m.or (.str fallbackMessage), type := "danger" }],
        threw := false } := by
  unfold handleSubmitCatch
  rw [h]
  simp [hm]

theorem submit_verify (p : Page) (error : JsVal) (latency : Nat)
    (h : error.message = some (.str verifyEmailReason)) (ht : p.timers = []) :
    (p.submit (.rejected error) latency).timers
        = [{ due := p.now + latency + 2000, callback := .navigate "/verifyemail" }]
    ∧ (p.submit (.rejected error) latency).navigations = p.navigations
    ∧ (p.submit (.rejected error) latency).now = p.now + latency
    ∧ (p.submit (.rejected error) latency).getItem "email" = some p.state.formData.email := by
  simp only [Page.submit, handleSubmitSettle, handleSubmitCatch_verify _ _ h]
  cases hm : p.mounted <;>
    simp [Page.run, Page.perform, Page.advance, handleSubmitBegin, hm, ht, Page.getItem,
      List.lookup]

theorem message_some_of_ne (error : JsVal) (h1 : error ≠ .undefined) (h2 : error ≠ .null) :
    ∃ m, error.message = some m := by
  cases error with
  | undefined => exact absurd rfl h1
  | null => exact absurd rfl h2
  | bool b => exact ⟨_, rfl⟩
  | num k => exact ⟨_, rfl⟩
  | str t => exact ⟨_, rfl⟩
  | obj props => exact ⟨_, rfl⟩

theorem handleSubmitCatch_threw (formData : FormData) (error : JsVal)
    (h : error.message = none) :
    handleSubmitCatch formData error = { calls := [.consoleError error], threw := true } := by
  unfold handleSubmitCatch
  rw [h]

theorem settle_invariant (formData : FormData) (outcome : SigninOutcome) (n : Notification)
    (hn : n.Invariant) :
    (notificationAfter n (handleSubmitSettle formData outcome).calls).Invariant := by
  cases outcome with
  | fulfilled payload =>
    intro h
    exact absurd h (by simp [handleSubmitSettle, notificationAfter, JsVal.truthy])
  | rejected error =>
    simp only [handleSubmitSettle]
    cases hmsg : error.message with
    | none =>
      rw [handleSubmitCatch_threw _ _ hmsg]
      exact hn
    | some m =>
      cases hs : m.strictEqStr verifyEmailReason with
      | true =>
        rw [handleSubmitCatch_verify _ _ (by rw [hmsg, message_str_of_strictEqStr _ _ hs])]
        intro h
        exact absurd h (by simp [notificationAfter, JsVal.truthy])
      | false =>
        rw [handleSubmitCatch_other _ _ _ hmsg hs]
        intro h
        have ht := or_truthy m
        simp only [notificationAfter] at h
        rw [ht] at h
        exact absurd h (by decide)

theorem message_eq_str_iff (error : JsVal) (reason : String) :
    error.message = some (.str reason)
      ↔ ∃ props, error = .obj props ∧ props.lookup "message" = some (.str reason) := by
  constructor
  · intro h
    cases error with
    | undefined => cases h
    | null => cases h
    | bool b => cases h
    | num k => cases h
    | str t => cases h
    | obj props =>
      refine ⟨props, rfl, ?_⟩
      simp only [JsVal.message] at h
      cases hl : props.lookup "message" with
      | none =>
        rw [hl] at h
        cases h
      | some v =>
        rw [hl] at h
        simp only [Option.getD_some, Option.some.injEq] at h
        rw [h]
  · rintro ⟨props, rfl, hl⟩
    simp only [JsVal.message, hl, Option.getD_some]

theorem render_or_fallback (m : JsVal) (type : String) (hb : m ≠ .bool true)
    (ho : ∀ props, m ≠ .obj props) :
    ∃ c, renderBanner { message := m.or (.str fallbackMessage), type := type }
        = some (.alert type c) ∧ c.visible = true
      ∧ ((∃ t, c = .text t ∧ t ≠ "") ∨ ∃ k, c = .number k ∧ k ≠ 0) := by
  have hf : ∃ t, Child.text fallbackMessage = .text t ∧ t ≠ "" :=
    ⟨fallbackMessage, rfl, by decide⟩
  cases m with
  | undefined => exact ⟨.text fallbackMessage, rfl, by decide, Or.inl hf⟩
  | null => exact ⟨.text fallbackMessage, rfl, by decide, Or.inl hf⟩
  | bool b =>
    cases b with
    | false => exact ⟨.text fallbackMessage, rfl, by decide, Or.inl hf⟩
    | true => exact absurd rfl hb
  | num k =>
    by_cases hk : k = 0
    · subst hk
      exact ⟨.text fallbackMessage, rfl, by decide, Or.inl hf⟩
    · refine ⟨.number k, ?_, rfl, Or.inr ⟨k, rfl, hk⟩⟩
      simp [renderBanner, JsVal.or, JsVal.truthy, JsVal.asChild, hk]
  | str t =>
    by_cases ht : t = ""
    · subst ht
      exact ⟨.text fallbackMessage, rfl, by decide, Or.inl hf⟩
    · refine ⟨.text t, ?_, ?_, Or.inl ⟨t, rfl, ht⟩⟩
      · simp [renderBanner, JsVal.or, JsVal.truthy, JsVal.asChild, ht]
      · simp [Child.visible, ht]
  | obj props => exact absurd rfl (ho props)

theorem storageWrites_cases (formData : FormData) (outcome : SigninOutcome) :
    ((∃ error, outcome = .rejected error ∧ error.message = some (.str verifyEmailReason))
        ∧ storageWrites (handleSubmit formData outcome).calls = [("email", formData.email)])
    ∨ ((¬ ∃ error, outcome = .rejected error ∧ error.message = some (.str verifyEmailReason))
        ∧ storageWrites (handleSubmit formData outcome).calls = []) := by
  cases outcome with
  | fulfilled payload =>
    refine Or.inr ⟨?_, rfl⟩
    rintro ⟨error, he, -⟩
    cases he
  | rejected error =>
    cases hmsg : error.message with
    | none =>
      refine Or.inr ⟨?_, ?_⟩
      · rintro ⟨e, he, hm⟩
        cases he
        rw [hmsg] at hm
        cases hm
      · simp [handleSubmit, handleSubmitSettle, handleSubmitCatch_threw _ _ hmsg,
          handleSubmitBegin, storageWrites]
    | some m =>
      cases hs : m.strictEqStr verifyEmailReason with
      | true =>
        have hv : error.message = some (.str verifyEmailReason) := by
          rw [hmsg, message_str_of_strictEqStr _ _ hs]
        refine Or.inl ⟨⟨error, rfl, hv⟩, ?_⟩
        simp [handleSubmit, handleSubmitSettle, handleSubmitCatch_verify _ _ hv,
          handleSubmitBegin, storageWrites]
      | false =>
        refine Or.inr ⟨?_, ?_⟩
        · rintro ⟨e, he, hm⟩
          cases he
          rw [hmsg] at hm
          cases hm
          simp [strictEqStr_str] at hs
        · simp [handleSubmit, handleSubmitSettle, handleSubmitCatch_other _ _ _ hmsg hs,
            handleSubmitBegin, storageWrites]

/-- The handler itself has no guard on the fields: whenever it runs, it
dispatches `signin` once, with the form data as they are. -/
theorem handleSubmit_dispatches_once (formData : FormData) (outcome : SigninOutcome) :
    signinCalls (handleSubmit formData outcome).calls = [formData] := by
  cases outcome with
  | fulfilled payload => rfl
  | rejected error =>
    cases hmsg : error.message with
    | none =>
      simp [handleSubmit, handleSubmitSettle, handleSubmitCatch_threw _ _ hmsg,
        handleSubmitBegin, signinCalls]
    | some m =>
      cases hs : m.strictEqStr verifyEmailReason with
      | true =>
        have hv : error.message = some (.str verifyEmailReason) := by
          rw [hmsg, message_str_of_strictEqStr _ _ hs]
        simp [handleSubmit, handleSubmitSettle, handleSubmitCatch_verify _ _ hv,
          handleSubmitBegin, signinCalls]
      | false =>
        simp [handleSubmit, handleSubmitSettle, handleSubmitCatch_other _ _ _ hmsg hs,
          handleSubmitBegin, signinCalls]

/-! ## Theorems -/

/-- C1: when `signin` resolves, `handleSubmit` ends without an exception, the
notification it leaves is exactly `Login successful!` of type `success`, it
dispatched `signin` once with the form data, it issues exactly one navigation
request, to `/home`, and it neither writes to storage nor sets a timer. -/
theorem handleSubmit_success (formData : FormData) (payload : JsVal) (n : Notification) :
    (handleSubmit formData (.fulfilled payload)).threw = false
    ∧ notificationAfter n (handleSubmit formData (.fulfilled payload)).calls
        = { message := .str "Login successful!", type := "success" }
    ∧ kindOf (notificationAfter n (handleSubmit formData (.fulfilled payload)).calls).type
        = some Kind.success
    ∧ signinCalls (handleSubmit formData (.fulfilled payload)).calls = [formData]
    ∧ navigateCalls (handleSubmit formData (.fulfilled payload)).calls = ["/home"]
    ∧ storageWrites (handleSubmit formData (.fulfilled payload)).calls = []
    ∧ timeoutCalls (handleSubmit formData (.fulfilled payload)).calls = [] := by
  refine ⟨rfl, rfl, ?_, rfl, rfl, rfl, rfl⟩
  show kindOf "success" = some Kind.success
  decide

/-- C2: when `signin` rejects with an error whose `message` is
`Please verify your email first.`, `handleSubmit` writes the submitted email to
storage under the key `email`, leaves a notification of type `warning`, makes
no `navigate` call itself and sets one timer of 2000 ms for
`navigate('/verifyemail')`.  On a page with no other timer pending, no
navigation request has been issued `d` ms after the handler for any
`d < 2000`, and the one to `/verifyemail` is issued at 2000 ms. -/
theorem handleSubmit_verify_email (p : Page) (error : JsVal) (latency d : Nat)
    (formData : FormData) (n : Notification)
    (h : error.message = some (.str verifyEmailReason)) (ht : p.timers = [])
    (hd : d < 2000) :
    (handleSubmit formData (.rejected error)).threw = false
    ∧ storageWrites (handleSubmit formData (.rejected error)).calls
        = [("email", formData.email)]
    ∧ notificationAfter n (handleSubmit formData (.rejected error)).calls
        = { message := .str "Please verify your email. Redirecting...", type := "warning" }
    ∧ kindOf (notificationAfter n (handleSubmit formData (.rejected error)).calls).type
        = some Kind.warning
    ∧ navigateCalls (handleSubmit formData (.rejected error)).calls = []
    ∧ timeoutCalls (handleSubmit formData (.rejected error)).calls
        = [(.navigate "/verifyemail", 2000)]
    ∧ (p.submit (.rejected error) latency).getItem "email" = some p.state.formData.email
    ∧ ((p.submit (.rejected error) latency).advance d).navigations = p.navigations
    ∧ ((p.submit (.rejected error) latency).advance 2000).navigations
        = p.navigations ++ [(p.now + latency + 2000, "/verifyemail")] := by
  have hc : (handleSubmit formData (.rejected error)).calls
      = [.preventDefault, .setNotification emptyNotification, .dispatchSignin formData,
         .consoleError error,
         .localStorageSetItem "email" formData.email,
         .setNotification
           { message := .str "Please verify your email. Redirecting...", type := "warning" },
         .setTimeout (.navigate "/verifyemail") 2000] := by
    simp [handleSubmit, handleSubmitSettle, handleSubmitCatch_verify _ _ h, handleSubmitBegin]
  obtain ⟨h1, h2, h3, h4⟩ := submit_verify p error latency h ht
  refine ⟨?_, ?_, ?_, ?_, ?_, ?_, h4, ?_, ?_⟩
  · simp [handleSubmit, handleSubmitSettle, handleSubmitCatch_verify _ _ h]
  · rw [hc]; rfl
  · rw [hc]; rfl
  · rw [hc]; show kindOf "warning" = some Kind.warning; decide
  · rw [hc]; rfl
  · rw [hc]; rfl
  · have hlt : ¬ (p.now + latency + 2000 ≤ p.now + latency + d) := by omega
    simp [Page.advance, h1, h2, h3, hlt]
  · simp [Page.advance, h1, h2, h3, Timer.fire]

/-- Witness of C2: the form of the test suite, `signin` rejecting with the
reason of the test at lines 128-130, 1999 ms after a handler that settled in
150 ms. -/
theorem handleSubmit_verify_email_witness :
    ((Page.mk 0 true
        { formData := { email := "test@example.com", password := "password123" },
          notification := emptyNotification } [] [] [] []).submit
        (.rejected (.obj [("message", .str "Please verify your email first.")])) 150).getItem
        "email" = some "test@example.com"
    ∧ (((Page.mk 0 true
        { formData := { email := "test@example.com", password := "password123" },
          notification := emptyNotification } [] [] [] []).submit
        (.rejected (.obj [("message", .str "Please verify your email first.")])) 150).advance
        1999).navigations = []
    ∧ (((Page.mk 0 true
        { formData := { email := "test@example.com", password := "password123" },
          notification := emptyNotification } [] [] [] []).submit
        (.rejected (.obj [("message", .str "Please verify your email first.")])) 150).advance
        2000).navigations = [(2150, "/verifyemail")] :=
  have key := handleSubmit_verify_email
    (Page.mk 0 true
      { formData := { email := "test@example.com", password := "password123" },
        notification := emptyNotification } [] [] [] [])
    (.obj [("message", .str "Please verify your email first.")]) 150 1999
    { email := "test@example.com", password := "password123" } emptyNotification
    (by simp [JsVal.message, List.lookup, verifyEmailReason]) rfl (by decide)
  ⟨key.2.2.2.2.2.2.1, key.2.2.2.2.2.2.2.1, key.2.2.2.2.2.2.2.2⟩

/-- C3, counterexample: the reason `R = ""` is a string other than
`Please verify your email first.`, and the message of the notification is the
fallback text, not `R`. -/
theorem handleSubmit_error_empty_reason :
    (JsVal.obj [("message", .str "")]).message = some (.str "")
    ∧ "" ≠ verifyEmailReason
    ∧ notificationAfter emptyNotification
        (handleSubmit { email := "test@example.com", password := "wrongpassword" }
          (.rejected (.obj [("message", .str "")]))).calls
        = { message := .str "Login failed. Please try again.", type := "danger" }
    ∧ (notificationAfter emptyNotification
        (handleSubmit { email := "test@example.com", password := "wrongpassword" }
          (.rejected (.obj [("message", .str "")]))).calls).message ≠ .str "" := by
  have hm : (JsVal.obj [("message", .str "")]).message = some (.str "") := by
    simp [JsVal.message, List.lookup]
  have hc := handleSubmitCatch_other { email := "test@example.com", password := "wrongpassword" }
    (.obj [("message", .str "")]) (.str "") hm (by simp [strictEqStr_str, verifyEmailReason])
  have hn : notificationAfter emptyNotification
      (handleSubmit { email := "test@example.com", password := "wrongpassword" }
        (.rejected (.obj [("message", .str "")]))).calls
      = { message := .str "Login failed. Please try again.", type := "danger" } := by
    simp [handleSubmit, handleSubmitSettle, hc, handleSubmitBegin, notificationAfter,
      JsVal.or, JsVal.truthy, fallbackMessage]
  refine ⟨hm, by decide, hn, ?_⟩
  rw [hn]
  simp

/-- C3, amended: when `signin` rejects with an error whose `message` is a value
`m` other than the string `Please verify your email first.`, `handleSubmit`
ends without an exception with a notification of type `danger` (the kind
error) whose message is `m` when `m` is truthy, so a non-empty reason string
is shown as it is, and the fallback text when `m` is falsy (no reason, or the
empty string). -/
theorem handleSubmit_error (formData : FormData) (error m : JsVal) (n : Notification)
    (h : error.message = some m) (hm : m.strictEqStr verifyEmailReason = false) :
    (handleSubmit formData (.rejected error)).threw = false
    ∧ notificationAfter n (handleSubmit formData (.rejected error)).calls
        = { message := if m.truthy then m else .str "Login failed. Please try again.",
            type := "danger" }
    ∧ kindOf (notificationAfter n (handleSubmit formData (.rejected error)).calls).type
        = some Kind.error := by
  have hn : notificationAfter n (handleSubmit formData (.rejected error)).calls
      = { message := if m.truthy then m else .str "Login failed. Please try again.",
          type := "danger" } := by
    simp [handleSubmit, handleSubmitSettle, handleSubmitCatch_other _ _ _ h hm,
      handleSubmitBegin, notificationAfter, JsVal.or, fallbackMessage]
  refine ⟨?_, hn, ?_⟩
  · simp [handleSubmit, handleSubmitSettle, handleSubmitCatch_other _ _ _ h hm]
  · rw [hn]; show kindOf "danger" = some Kind.error; decide

/-- Witness of C3: the rejection of the test at lines 97-99, with the reason
`Invalid credentials`. -/
theorem handleSubmit_error_witness :
    notificationAfter emptyNotification
        (handleSubmit { email := "test@example.com", password := "wrongpassword" }
          (.rejected (.obj [("message", .str "Invalid credentials")]))).calls
      = { message := .str "Invalid credentials", type := "danger" } :=
  (handleSubmit_error { email := "test@example.com", password := "wrongpassword" }
    (.obj [("message", .str "Invalid credentials")]) (.str "Invalid credentials")
    emptyNotification (by simp [JsVal.message, List.lookup])
    (by simp [strictEqStr_str, verifyEmailReason])).2.1

/-- C4: when the email or the password is empty, activating the submit button
changes nothing on the page: `signin` is not dispatched, and the form data and
the notification are as before. -/
theorem clickSubmit_empty_field (validEmail : String → Bool) (status : JsVal) (p : Page)
    (outcome : SigninOutcome) (latency : Nat)
    (h : p.state.formData.email = "" ∨ p.state.formData.password = "") :
    p.clickSubmit validEmail status outcome latency = p := by
  have hv : checkValidity validEmail p.state.formData = false := by
    unfold checkValidity
    rcases h with h | h <;> simp [h]
  unfold Page.clickSubmit
  simp [hv]

/-- Witness of C4: the page of the test at lines 194-203, the button activated
with both fields still empty. -/
theorem clickSubmit_empty_field_witness :
    (Page.mk 0 true initialState [] [] [] []).clickSubmit (fun _ => true) (.str "idle")
        (.fulfilled .undefined) 150 = Page.mk 0 true initialState [] [] [] []
    ∧ ((Page.mk 0 true initialState [] [] [] []).clickSubmit (fun _ => true) (.str "idle")
        (.fulfilled .undefined) 150).dispatched = [] :=
  have key := clickSubmit_empty_field (fun _ => true) (.str "idle")
    (Page.mk 0 true initialState [] [] [] []) (.fulfilled .undefined) 150 (Or.inl rfl)
  ⟨key, by rw [key]⟩

/-- C5: whatever the notification is, the banner's `onClose` leaves the empty
one, message `''` and type `''` (the kind none), so that no banner is rendered
(the page gets the empty string and no `Alert`); the form data is untouched. -/
theorem onClose_clears (s : State) :
    (s.after onClose).notification = { message := .str "", type := "" }
    ∧ kindOf (s.after onClose).notification.type = some Kind.none
    ∧ bannerShown (s.after onClose).notification = false
    ∧ (s.after onClose).formData = s.formData
    ∧ renderBanner (s.after onClose).notification = some (.bare (.text "")) := by
  refine ⟨rfl, ?_, ?_, rfl, ?_⟩
  · show kindOf "" = some Kind.none; decide
  · show bannerShown { message := .str "", type := "" } = false; decide
  · show renderBanner { message := .str "", type := "" } = some (.bare (.text "")); rfl

/-- C6: the submit button is disabled exactly when `status` is the string
`loading`; its label is `Logging in...` when disabled and `Login` otherwise;
the two labels differ; and the button is enabled in the statuses `idle`,
`succeeded` and `failed`. -/
theorem submit_button (status : JsVal) :
    (submitDisabled status = true ↔ status = .str "loading")
    ∧ submitLabel status = (if submitDisabled status then "Logging in..." else "Login")
    ∧ submitSpinner status = submitDisabled status
    ∧ (submitDisabled status = false → submitLabel status ≠ submitLabel (.str "loading"))
    ∧ submitDisabled (.str "idle") = false
    ∧ submitDisabled (.str "succeeded") = false
    ∧ submitDisabled (.str "failed") = false := by
  refine ⟨⟨fun h => message_str_of_strictEqStr _ _ h, fun h => ?_⟩, rfl, rfl, fun h => ?_,
    by decide, by decide, by decide⟩
  · rw [h]
    decide
  · have hl : submitLabel status = "Login" := by
      unfold submitLabel
      unfold submitDisabled at h
      rw [h]
      rfl
    rw [hl]
    decide

/-- C7, counterexample: the form of the test suite is submitted at time 0 and
`signin` rejects 150 ms later with `Please verify your email first.`; the
component is torn down at 1150 ms, before the timer is due, with no navigation
request issued so far; at 2150 ms, after the teardown, the request to
`/verifyemail` is issued all the same. -/
theorem teardown_does_not_cancel :
    ((((Page.mk 0 true
        { formData := { email := "test@example.com", password := "password123" },
          notification := emptyNotification } [] [] [] []).submit
        (.rejected (.obj [("message", .str "Please verify your email first.")]))
        150).advance 1000).unmount).navigations = []
    ∧ ((((Page.mk 0 true
        { formData := { email := "test@example.com", password := "password123" },
          notification := emptyNotification } [] [] [] []).submit
        (.rejected (.obj [("message", .str "Please verify your email first.")]))
        150).advance 1000).unmount).now = 1150
    ∧ (((((Page.mk 0 true
        { formData := { email := "test@example.com", password := "password123" },
          notification := emptyNotification } [] [] [] []).submit
        (.rejected (.obj [("message", .str "Please verify your email first.")]))
        150).advance 1000).unmount).advance 1000).mounted = false
    ∧ (((((Page.mk 0 true
        { formData := { email := "test@example.com", password := "password123" },
          notification := emptyNotification } [] [] [] []).submit
        (.rejected (.obj [("message", .str "Please verify your email first.")]))
        150).advance 1000).unmount).advance 1000).navigations = [(2150, "/verifyemail")] := by
  have hm : (JsVal.obj [("message", .str "Please verify your email first.")]).message
      = some (.str verifyEmailReason) := by
    simp [JsVal.message, List.lookup, verifyEmailReason]
  obtain ⟨h1, h2, h3, -⟩ := submit_verify
    (Page.mk 0 true
      { formData := { email := "test@example.com", password := "password123" },
        notification := emptyNotification } [] [] [] [])
    (.obj [("message", .str "Please verify your email first.")]) 150 hm rfl
  simp [Page.advance, Page.unmount, h1, h2, h3, Timer.fire]

/-- C7, amended: on the email-verification path the timer is not tied to the
component.  When the component is torn down `t < 2000` ms after the handler,
no navigation request has been issued by then and the timer is still pending;
the teardown does not cancel it, and once the 2000 ms have elapsed the request
to `/verifyemail` has been issued, at the time the timer was due, on the
unmounted component. -/
theorem teardown_keeps_timer (p : Page) (error : JsVal) (latency t d : Nat)
    (h : error.message = some (.str verifyEmailReason)) (ht : p.timers = [])
    (h1 : t < 2000) (h2 : 2000 ≤ t + d) :
    (((p.submit (.rejected error) latency).advance t).unmount).navigations = p.navigations
    ∧ (((p.submit (.rejected error) latency).advance t).unmount).timers
        = [{ due := p.now + latency + 2000, callback := .navigate "/verifyemail" }]
    ∧ ((((p.submit (.rejected error) latency).advance t).unmount).advance d).mounted = false
    ∧ ((((p.submit (.rejected error) latency).advance t).unmount).advance d).navigations
        = p.navigations ++ [(p.now + latency + 2000, "/verifyemail")] := by
  obtain ⟨e1, e2, e3, -⟩ := submit_verify p error latency h ht
  have hlt : ¬ (p.now + latency + 2000 ≤ p.now + latency + t) := by omega
  have hle : p.now + latency + 2000 ≤ p.now + latency + t + d := by omega
  simp [Page.advance, Page.unmount, e1, e2, e3, hlt, hle, Timer.fire]

/-- Witness of C7, amended: the run of the counterexample, torn down 1000 ms
after the handler and looked at 1000 ms later. -/
theorem teardown_keeps_timer_witness :
    (((((Page.mk 0 true
        { formData := { email := "test@example.com", password := "password123" },
          notification := emptyNotification } [] [] [] []).submit
        (.rejected (.obj [("message", .str "Please verify your email first.")]))
        150).advance 1000).unmount).advance 1000).navigations = [(2150, "/verifyemail")] :=
  (teardown_keeps_timer
    (Page.mk 0 true
      { formData := { email := "test@example.com", password := "password123" },
        notification := emptyNotification } [] [] [] [])
    (.obj [("message", .str "Please verify your email first.")]) 150 1000 1000
    (by simp [JsVal.message, List.lookup, verifyEmailReason]) rfl (by decide)
    (by decide)).2.2.2

/-- C8, counterexample: four rejections of `signin` for the form of the test
suite.  With `null`, reading `error.message` in the `catch` block throws, the
exception leaves `handleSubmit`, and the notification is the empty one written
at line 27, for which no `Alert` is rendered.  With an error whose `message`
is an object, the handler ends normally and the render of the banner throws.
With an error whose `message` is `true`, the `Alert` is rendered with nothing
in it.  With `Please verify your email first.` on a page whose
`localStorage.setItem` throws, the exception leaves `handleSubmit` at line 41
and the notification is again the empty one. -/
theorem handleSubmit_not_always_notifies :
    ((handleSubmit { email := "test@example.com", password := "password123" }
        (.rejected .null)).threw = true
      ∧ notificationAfter { message := .str "Login successful!", type := "success" }
          (handleSubmit { email := "test@example.com", password := "password123" }
            (.rejected .null)).calls = { message := .str "", type := "" }
      ∧ renderBanner (notificationAfter { message := .str "Login successful!", type := "success" }
          (handleSubmit { email := "test@example.com", password := "password123" }
            (.rejected .null)).calls) = some (.bare (.text "")))
    ∧ ((handleSubmit { email := "test@example.com", password := "password123" }
          (.rejected (.obj [("message", .obj [("a", .num 1)])]))).threw = false
      ∧ renderBanner (notificationAfter emptyNotification
          (handleSubmit { email := "test@example.com", password := "password123" }
            (.rejected (.obj [("message", .obj [("a", .num 1)])]))).calls) = none)
    ∧ renderBanner (notificationAfter emptyNotification
        (handleSubmit { email := "test@example.com", password := "password123" }
          (.rejected (.obj [("message", .bool true)]))).calls)
        = some (.alert "danger" .nothing)
    ∧ ((handleSubmitWithStorage true { email := "test@example.com", password := "password123" }
          (.rejected (.obj [("message", .str "Please verify your email first.")]))).threw = true
      ∧ notificationAfter { message := .str "Login successful!", type := "success" }
          (handleSubmitWithStorage true
            { email := "test@example.com", password := "password123" }
            (.rejected (.obj [("message", .str "Please verify your email first.")]))).calls
          = { message := .str "", type := "" }) := by
  have ho : (JsVal.obj [("message", .obj [("a", .num 1)])]).message
      = some (.obj [("a", .num 1)]) := by
    simp [JsVal.message, List.lookup]
  have hb : (JsVal.obj [("message", .bool true)]).message = some (.bool true) := by
    simp [JsVal.message, List.lookup]
  have hv : (JsVal.obj [("message", .str "Please verify your email first.")]).message
      = some (.str verifyEmailReason) := by
    simp [JsVal.message, List.lookup, verifyEmailReason]
  have co := handleSubmitCatch_other { email := "test@example.com", password := "password123" }
    _ _ ho rfl
  have cb := handleSubmitCatch_other { email := "test@example.com", password := "password123" }
    _ _ hb rfl
  have cv := handleSubmitCatch_verify { email := "test@example.com", password := "password123" }
    _ hv
  refine ⟨⟨rfl, rfl, rfl⟩, ⟨?_, ?_⟩, ?_, ?_, ?_⟩
  · simp [handleSubmit, handleSubmitSettle, co]
  · simp [handleSubmit, handleSubmitSettle, co, handleSubmitBegin, notificationAfter,
      renderBanner, JsVal.or, JsVal.truthy, JsVal.asChild]
  · simp [handleSubmit, handleSubmitSettle, cb, handleSubmitBegin, notificationAfter,
      renderBanner, JsVal.or, JsVal.truthy, JsVal.asChild]
  · simp [handleSubmitWithStorage, Run.setItemThrowing, handleSubmit, handleSubmitSettle, cv,
      handleSubmitBegin, upToSetItem]
  · simp [handleSubmitWithStorage, Run.setItemThrowing, handleSubmit, handleSubmitSettle, cv,
      handleSubmitBegin, upToSetItem, notificationAfter, emptyNotification]

/-- C8, amended: let `signin` resolve, or reject with a value other than
`undefined` and `null` whose `message` is neither `true` nor an object, and
let `localStorage.setItem` not throw if the rejection is the one with
`Please verify your email first.`.  Then `handleSubmit` ends without an
exception, and the banner is rendered as an `Alert` whose child, the message
of the notification, is a non-empty string or a non-zero number: a
notification with something to read is displayed. -/
theorem handleSubmit_always_notifies (setItemThrows : Bool) (formData : FormData)
    (outcome : SigninOutcome) (n : Notification)
    (h1 : outcome ≠ .rejected .undefined) (h2 : outcome ≠ .rejected .null)
    (h3 : ∀ error m, outcome = .rejected error → error.message = some m →
      m ≠ .bool true ∧ ∀ props, m ≠ .obj props)
    (h4 : setItemThrows = true → ∀ props, outcome = .rejected (.obj props) →
      props.lookup "message" ≠ some (.str "Please verify your email first.")) :
    (handleSubmitWithStorage setItemThrows formData outcome).threw = false
    ∧ bannerShown
        (notificationAfter n (handleSubmitWithStorage setItemThrows formData outcome).calls)
        = true
    ∧ ∃ c, renderBanner
        (notificationAfter n (handleSubmitWithStorage setItemThrows formData outcome).calls)
        = some (.alert
            (notificationAfter n
              (handleSubmitWithStorage setItemThrows formData outcome).calls).type c)
      ∧ ((∃ t, c = .text t ∧ t ≠ "") ∨ ∃ k, c = .number k ∧ k ≠ 0) := by
  have key : (handleSubmitWithStorage setItemThrows formData outcome).threw = false
      ∧ ∃ c, renderBanner
          (notificationAfter n (handleSubmitWithStorage setItemThrows formData outcome).calls)
          = some (.alert
              (notificationAfter n
                (handleSubmitWithStorage setItemThrows formData outcome).calls).type c)
        ∧ c.visible = true
        ∧ ((∃ t, c = .text t ∧ t ≠ "") ∨ ∃ k, c = .number k ∧ k ≠ 0) := by
    cases outcome with
    | fulfilled payload =>
      cases setItemThrows
      · exact ⟨rfl, .text "Login successful!", rfl, by decide,
          Or.inl ⟨_, rfl, by decide⟩⟩
      · exact ⟨rfl, .text "Login successful!", rfl, by decide,
          Or.inl ⟨_, rfl, by decide⟩⟩
    | rejected error =>
      obtain ⟨m, hmsg⟩ := message_some_of_ne error
        (fun he => h1 (by rw [he])) (fun he => h2 (by rw [he]))
      cases hs : m.strictEqStr verifyEmailReason with
      | true =>
        have hm : error.message = some (.str verifyEmailReason) := by
          rw [hmsg, message_str_of_strictEqStr _ _ hs]
        have hv := handleSubmitCatch_verify formData error hm
        obtain ⟨props, he, hl⟩ := (message_eq_str_iff error verifyEmailReason).mp hm
        have hst : setItemThrows = false := by
          cases hst : setItemThrows with
          | false => rfl
          | true => exact absurd hl (h4 hst props (by rw [he]))
        subst hst
        refine ⟨?_, .text "Please verify your email. Redirecting...", ?_, by decide,
          Or.inl ⟨_, rfl, by decide⟩⟩
        · simp [handleSubmitWithStorage, handleSubmit, handleSubmitSettle, hv]
        · simp [handleSubmitWithStorage, handleSubmit, handleSubmitSettle, hv,
            handleSubmitBegin, notificationAfter, renderBanner, JsVal.truthy, JsVal.asChild]
      | false =>
        have ho := handleSubmitCatch_other formData error m hmsg hs
        obtain ⟨hb, hobj⟩ := h3 error m rfl hmsg
        obtain ⟨c, hc, hvis, hread⟩ := render_or_fallback m "danger" hb hobj
        have hcalls : handleSubmitWithStorage setItemThrows formData (.rejected error)
            = { calls :=
                  [.preventDefault, .setNotification emptyNotification,
                   .dispatchSignin formData, .consoleError error,
                   .setNotification { message := m.or (.str fallbackMessage), type := "danger" }],
                threw := false } := by
          cases setItemThrows <;>
            simp [handleSubmitWithStorage, Run.setItemThrowing, handleSubmit,
              handleSubmitSettle, ho, handleSubmitBegin, upToSetItem]
        rw [hcalls]
        exact ⟨rfl, c, hc, hvis, hread⟩
  obtain ⟨ht, c, hc, hvis, hread⟩ := key
  refine ⟨ht, ?_, c, hc, hread⟩
  unfold bannerShown
  rw [hc]
  exact hvis

/-- Witness of C8, amended: the rejection with the reason `Invalid credentials`
(lines 97-99 of the test suite), on a page whose storage would throw: the
`Alert` of variant `danger` is rendered with that text. -/
theorem handleSubmit_always_notifies_witness :
    (handleSubmitWithStorage true { email := "test@example.com", password := "wrongpassword" }
        (.rejected (.obj [("message", .str "Invalid credentials")]))).threw = false
    ∧ bannerShown (notificationAfter emptyNotification
        (handleSubmitWithStorage true { email := "test@example.com", password := "wrongpassword" }
          (.rejected (.obj [("message", .str "Invalid credentials")]))).calls) = true
    ∧ renderBanner (notificationAfter emptyNotification
        (handleSubmitWithStorage true { email := "test@example.com", password := "wrongpassword" }
          (.rejected (.obj [("message", .str "Invalid credentials")]))).calls)
        = some (.alert "danger" (.text "Invalid credentials")) :=
  have key := handleSubmit_always_notifies true
    { email := "test@example.com", password := "wrongpassword" }
    (.rejected (.obj [("message", .str "Invalid credentials")])) emptyNotification
    (by simp) (by simp)
    (by
      intro error m he hm
      cases he
      simp only [JsVal.message, List.lookup] at hm
      cases hm
      exact ⟨by simp, by simp⟩)
    (by
      intro _ props he
      cases he
      simp [List.lookup])
  ⟨key.1, key.2.1, by
    simp [handleSubmitWithStorage, Run.setItemThrowing, handleSubmit, handleSubmitSettle,
      handleSubmitCatch, JsVal.message, List.lookup, JsVal.strictEqStr, verifyEmailReason,
      handleSubmitBegin, upToSetItem, notificationAfter, renderBanner, JsVal.or, JsVal.truthy,
      JsVal.asChild]⟩

/-- C9: `handleSubmit` writes to storage exactly when `signin` rejects with an
error object whose `message` is the string `Please verify your email first.`:
in that case its `setItem` calls are the one call with key `email` and the
submitted email, and in every other case (`signin` resolves, or rejects with
anything else) it makes no `setItem` call.  In particular the write occurs for
every error object that has that `message` first among its properties, and no
write occurs for the reason `Invalid credentials`. -/
theorem handleSubmit_storage (formData : FormData) (outcome : SigninOutcome) :
    (storageWrites (handleSubmit formData outcome).calls = [("email", formData.email)]
      ↔ ∃ props, outcome = .rejected (.obj props)
          ∧ props.lookup "message" = some (.str "Please verify your email first."))
    ∧ (storageWrites (handleSubmit formData outcome).calls = []
      ↔ ¬ ∃ props, outcome = .rejected (.obj props)
          ∧ props.lookup "message" = some (.str "Please verify your email first."))
    ∧ (∀ rest, storageWrites (handleSubmit formData
          (.rejected (.obj (("message", .str "Please verify your email first.") :: rest)))).calls
        = [("email", formData.email)])
    ∧ storageWrites (handleSubmit formData
          (.rejected (.obj [("message", .str "Invalid credentials")]))).calls = []
    ∧ (∀ payload, storageWrites (handleSubmit formData (.fulfilled payload)).calls = []) := by
  have hiff : ∀ o : SigninOutcome,
      (∃ error, o = .rejected error ∧ error.message = some (.str verifyEmailReason))
        ↔ ∃ props, o = .rejected (.obj props)
            ∧ props.lookup "message" = some (.str "Please verify your email first.") := by
    intro o
    constructor
    · rintro ⟨error, he, hm⟩
      obtain ⟨props, hp, hl⟩ := (message_eq_str_iff error verifyEmailReason).mp hm
      exact ⟨props, by rw [he, hp], hl⟩
    · rintro ⟨props, he, hl⟩
      exact ⟨.obj props, he, (message_eq_str_iff _ verifyEmailReason).mpr ⟨props, rfl, hl⟩⟩
  have hboth : ∀ o : SigninOutcome,
      (storageWrites (handleSubmit formData o).calls = [("email", formData.email)]
        ↔ ∃ props, o = .rejected (.obj props)
            ∧ props.lookup "message" = some (.str "Please verify your email first."))
      ∧ (storageWrites (handleSubmit formData o).calls = []
        ↔ ¬ ∃ props, o = .rejected (.obj props)
            ∧ props.lookup "message" = some (.str "Please verify your email first.")) := by
    intro o
    rw [← hiff o]
    rcases storageWrites_cases formData o with ⟨hp, hw⟩ | ⟨hp, hw⟩
    · refine ⟨⟨fun _ => hp, fun _ => hw⟩, ⟨fun h => ?_, fun h => absurd hp h⟩⟩
      rw [hw] at h
      cases h
    · refine ⟨⟨fun h => ?_, fun h => absurd h hp⟩, ⟨fun _ => hp, fun _ => hw⟩⟩
      rw [hw] at h
      cases h
  refine ⟨(hboth outcome).1, (hboth outcome).2, ?_, ?_, ?_⟩
  · intro rest
    simp [handleSubmit, handleSubmitSettle, handleSubmitCatch, JsVal.message, List.lookup,
      JsVal.strictEqStr, verifyEmailReason, handleSubmitBegin, storageWrites]
  · simp [handleSubmit, handleSubmitSettle, handleSubmitCatch, JsVal.message, List.lookup,
      JsVal.strictEqStr, verifyEmailReason, handleSubmitBegin, storageWrites]
  · intro payload
    rfl

/-- Witness of C9: for the form of the test suite, the rejection with
`Please verify your email first.` (lines 128-130 of the test suite) makes the
one write of the submitted email, and the rejection with
`Invalid credentials` and the success make none. -/
theorem handleSubmit_storage_witness :
    storageWrites (handleSubmit { email := "test@example.com", password := "password123" }
        (.rejected (.obj [("message", .str "Please verify your email first.")]))).calls
      = [("email", "test@example.com")]
    ∧ storageWrites (handleSubmit { email := "test@example.com", password := "password123" }
        (.rejected (.obj [("message", .str "Invalid credentials")]))).calls = []
    ∧ storageWrites (handleSubmit { email := "test@example.com", password := "password123" }
        (.fulfilled .undefined)).calls = [] :=
  have key := handleSubmit_storage { email := "test@example.com", password := "password123" }
    (.fulfilled .undefined)
  ⟨key.2.2.1 [], key.2.2.2.1, key.2.2.2.2 .undefined⟩

/-- C10: the invariant of the notification (a falsy message comes with the
empty type) holds at mount; every event keeps it: a keystroke, the clearing
at the start of `handleSubmit`, each way `handleSubmit` can go once `signin`
has settled, and the dismissal of the banner; hence it holds in every
reachable state. -/
theorem notification_invariant :
    initialState.notification.Invariant
    ∧ (∀ (s : State) (e : Event), s.notification.Invariant →
        (s.step e).notification.Invariant)
    ∧ (∀ s : State, Reachable s → s.notification.Invariant) := by
  have h0 : initialState.notification.Invariant := fun _ => rfl
  have hstep : ∀ (s : State) (e : Event), s.notification.Invariant →
      (s.step e).notification.Invariant := by
    intro s e hs
    cases e with
    | change name value => exact hs
    | submitBegin => exact fun _ => rfl
    | submitSettle formData outcome => exact settle_invariant formData outcome _ hs
    | dismiss => exact fun _ => rfl
  refine ⟨h0, hstep, ?_⟩
  intro s hr
  induction hr with
  | init => exact h0
  | step s e _ ih => exact hstep s e ih

end LoginPage
